import Mathlib

/-!
# Verification of `librarejob` (musaprg/rarejobctl)

Shallow embedding of `src/librarejob/rarejob.go` (package `librarejob`).

Conventions of the embedding:

* **Time.** Go `time.Time` values in the local zone are modelled as `Int`
  minutes since the zero time (`time.Time{}` is minute `0`), at
  minute granularity (no claim distinguishes sub-minute instants).
  A calendar date (year, month, day) is collapsed to its day index
  `dayOf t = t / 1440`; `time.Date(y, mo, d, h, m, 0, 0, time.Local)` is
  `timeDate day h m` where `day` stands for the (y, mo, d) triple.
  `time.Duration` is likewise `Int` minutes.
* **WebDriver.** The selenium session is modelled as a `Backend` record of
  response functions (a fake driver).  Every driver call the code makes is
  recorded in an `Op` trace, so "no backend operation was invoked" is the
  trace being `[]`.
* **Failure.** A Go `(x, error)` return is an `Except`/`Option`; a Go
  runtime panic (nil-interface method call, out-of-range index) is the
  distinguished outcome `RRes.crash`, which is never an error *return*.
-/

namespace librarejob

/-- Go `time.Time` in the local zone, as minutes since the zero time. -/
abbrev GoTime := Int

/-- `time.Time{}`, the zero time, used as the unparseable-slot sentinel. -/
def zeroTime : GoTime := 0

/-- `t.Hour()`: hour of day, 0–23 (floor division, as calendar time). -/
def goHour (t : GoTime) : Int := (t / 60) % 24

/-- `t.Minute()`: minute within the hour, 0–59. -/
def goMinute (t : GoTime) : Int := t % 60

/-- The day index of `t`: stands for the (Year(), Month(), Day()) triple. -/
def dayOf (t : GoTime) : Int := t / 1440

/-- `time.Date(y, mo, d, h, m, 0, 0, time.Local)` with (y, mo, d) collapsed
to the day index `day`; normalises overflowing `h`/`m` exactly as Go does. -/
def timeDate (day : Int) (h m : Nat) : GoTime := day * 1440 + h * 60 + m

/-- `Reserve` (rarejob.go lines 19–23). -/
structure Reserve where
  Name : String
  StartAt : GoTime
  EndAt : GoTime
deriving Repr, DecidableEq

/-- `Tutor` (rarejob.go lines 25–28); slots may contain the zero-time
sentinel. -/
structure Tutor where
  Name : String
  AvailableSlots : List GoTime
deriving Repr, DecidableEq

/-- A located DOM element; the only method the code calls on one is
`Text()`. -/
structure Elem where
  text : String
deriving Repr, DecidableEq

deriving instance DecidableEq for Except

/-- `ErrSpreadAcrossTwoDays` (declared in the package's error file, not
under src/) and the `fmt.Errorf`-wrapped errors of rarejob.go. -/
inductive RErr where
  | spreadAcrossTwoDays
  | generic (msg : String)
deriving Repr, DecidableEq

/-- Outcome of a Go call: normal value, error return, or runtime panic
(`crash`, e.g. calling `Text()` on a nil element or indexing an empty
slice). -/
inductive RRes (α : Type) where
  | ok (a : α)
  | err (e : RErr)
  | crash
deriving Repr, DecidableEq

/-- One webdriver operation, as recorded in execution traces. -/
inductive Op where
  | get (url : String)
  | waitElem (sel : String)
  | findElem (sel : String)
  | findElems (sel : String)
  | text
  | sendKeys (keys : String)
  | click
  | currentURL
  | waitURL (url : String)
  | waitSession
deriving Repr, DecidableEq

/-- The webdriver session as a record of responses (a fake driver):
`navErr url` is the error of `wd.Get url` (or `none`), `findElement` /
`findElements` answer locator queries (`findElements` answers only with the
number of matches, the sole datum the code reads from it), `currentURL`
answers `wd.CurrentURL()`. -/
structure Backend where
  navErr : String → Option String
  findElement : String → Except String Elem
  findElements : String → Except String Nat
  currentURL : String

/-- Modelled from the spec: the fixed site-specific locator constants and
URLs live in a package file that is not under src/; their exact text is
site-owned configuration, so they are modelled as distinct placeholder
strings (the code only ever passes them through to the driver). -/
def rarejobLoginURL : String := "rarejob:login"

/-- Modelled from the spec: placeholder for the reservation-finished URL
constant (file not under src/). -/
def rarejobReservationFinishURL : String := "rarejob:reservation-finish"

/-- Modelled from the spec: placeholder for the login email-field CSS
selector constant (file not under src/). -/
def loginPageEmailSelector : String := "sel:login-email"

/-- Modelled from the spec: placeholder for the login password-field CSS
selector constant (file not under src/). -/
def loginPagePasswordSelector : String := "sel:login-password"

/-- Modelled from the spec: placeholder for the tutor-list CSS selector
constant (file not under src/). -/
def tutorListSelector : String := "sel:tutor-list"

/-- Modelled from the spec: the tutor-name selector template
(`fmt.Sprintf(tutorNameSelector, tnum)`), file not under src/. -/
def tutorNameSelector (tnum : Nat) : String :=
  "sel:tutor-name:" ++ toString tnum

/-- Modelled from the spec: the per-tutor time-slot-list selector template
(`fmt.Sprintf(tutorTimeSlotSelector, tnum)`), file not under src/. -/
def tutorTimeSlotSelector (tnum : Nat) : String :=
  "sel:tutor-slots:" ++ toString tnum

/-- Modelled from the spec: the per-slot button selector template
(`fmt.Sprintf(tutorTimeSlotButtonSelector, tnum, snum)`), file not under
src/. -/
def tutorTimeSlotButtonSelector (tnum snum : Nat) : String :=
  "sel:tutor-slot-button:" ++ toString tnum ++ ":" ++ toString snum

/-- Splits a character list at each ':' (the shape of
`strings.Split(s, ":")`). -/
def splitColons : List Char → List (List Char)
  | [] => [[]]
  | c :: cs =>
    if c = ':' then [] :: splitColons cs
    else
      match splitColons cs with
      | [] => [[c]]
      | g :: gs => (c :: g) :: gs

/-- Reads a non-empty all-digit character group as a decimal number. -/
def digitGroupToNat : List Char → Option Nat
  | [] => none
  | cs =>
    if cs.all Char.isDigit then
      some (cs.foldl (fun acc c => acc * 10 + (c.toNat - 48)) 0)
    else none

/-- Modelled from the spec: `parseTime` (file not under src/) parses a
scraped free-text label of the form "H:MM" into hour and minute integers,
failing on any other shape; per 4.2 of the spec the caller, not the parser,
handles the failure.  On the Go error path the int results carry the zero
value, so the model returns the hour/minute pair alongside a success flag:
`(h, m, ok)`. -/
def parseTime (s : String) : Nat × Nat × Bool :=
  match splitColons s.toList with
  | [hs, ms] =>
    match digitGroupToNat hs, digitGroupToNat ms with
    | some h, some m => (h, m, true)
    | _, _ => (0, 0, false)
  | _ => (0, 0, false)

/-- Modelled from the spec: `generateTutorSearchQuery(from, by)` (file not
under src/) builds the search URL encoding the window; the spec gives it no
failure case, so the model always returns `.ok`, but the call site keeps
the source's error check. -/
def generateTutorSearchQuery (fromT byT : GoTime) : Except String String :=
  .ok ("rarejob:search?from=" ++ toString fromT ++ "&by=" ++ toString byT)

/-- The body of the inner slot loop for one `snum` (rarejob.go lines
164–173): look the slot button up; on lookup error the code appends the
zero time *and then still calls `Text()` on the nil handle* (no `continue`),
which panics — modelled as the `.text` op followed by `none`.  On a parse
error the code appends the zero time and then *also* falls through to
append `time.Date(..., h, m, ...)` with the parser's zero-value results
(again no `continue`), so a malformed label contributes two entries. -/
def scrapeSlotStep (b : Backend) (fromDay : Int) (tnum snum : Nat) :
    List Op × Option (List GoTime) :=
  let sel := tutorTimeSlotButtonSelector tnum snum
  match b.findElement sel with
  | .error _ => ([Op.findElem sel, Op.text], none)
  | .ok elem =>
    match parseTime elem.text with
    | (h, m, false) =>
      ([Op.findElem sel, Op.text],
       some [zeroTime, timeDate fromDay h m])
    | (h, m, true) =>
      ([Op.findElem sel, Op.text], some [timeDate fromDay h m])

/-- The inner slot loop (rarejob.go lines 163–174) over
`snum = start, start+1, …` for `count` iterations, concatenating each
step's appended entries; `none` propagates a panic. -/
def scrapeSlotsLoop (b : Backend) (fromDay : Int) (tnum : Nat) :
    Nat → Nat → List Op × Option (List GoTime)
  | _, 0 => ([], some [])
  | snum, count + 1 =>
    let (tr, r) := scrapeSlotStep b fromDay tnum snum
    match r with
    | none => (tr, none)
    | some es =>
      let (tr2, r2) := scrapeSlotsLoop b fromDay tnum (snum + 1) count
      (tr ++ tr2, r2.map (es ++ ·))

/-- One tutor row (rarejob.go lines 155–178): look the name element up —
the error is *discarded* (`nameElm, _ :=`), so a lookup failure leaves a
nil handle whose `Text()` call panics; then enumerate the row's slot
elements — that error is fatal for the whole search ("failed to get time
slots for tutor #n") — and run the inner slot loop from `snum = 1` over
`len(slotElms)` iterations. -/
def scrapeRow (b : Backend) (fromDay : Int) (tnum : Nat) :
    List Op × RRes Tutor :=
  let nameSel := tutorNameSelector tnum
  match b.findElement nameSel with
  | .error _ => ([Op.findElem nameSel, Op.text], RRes.crash)
  | .ok nameElm =>
    let name := nameElm.text
    let slotSel := tutorTimeSlotSelector tnum
    let tr0 := [Op.findElem nameSel, Op.text, Op.findElems slotSel]
    match b.findElements slotSel with
    | .error e =>
      (tr0, RRes.err (RErr.generic
        ("failed to get time slots for tutor #" ++ toString tnum ++ ": " ++ e)))
    | .ok count =>
      let (tr, r) := scrapeSlotsLoop b fromDay tnum 1 count
      (tr0 ++ tr,
       match r with
       | none => RRes.crash
       | some slots => RRes.ok ⟨name, slots⟩)

/-- The outer tutor loop (rarejob.go lines 154–179) over
`tnum = start, start+1, …` for `count` iterations, appending one `Tutor`
per row; a row's fatal error or panic aborts the loop. -/
def scrapeTutors (b : Backend) (fromDay : Int) :
    Nat → Nat → List Op × RRes (List Tutor)
  | _, 0 => ([], RRes.ok [])
  | tnum, count + 1 =>
    let (tr, r) := scrapeRow b fromDay tnum
    match r with
    | RRes.err e => (tr, RRes.err e)
    | RRes.crash => (tr, RRes.crash)
    | RRes.ok tut =>
      let (tr2, r2) := scrapeTutors b fromDay (tnum + 1) count
      (tr ++ tr2,
       match r2 with
       | RRes.ok ts => RRes.ok (tut :: ts)
       | RRes.err e => RRes.err e
       | RRes.crash => RRes.crash)

/-- The search phase after validation and navigation (rarejob.go lines
146–181): wait for the tutor list, enumerate the rows (`FindElements`
failure is "failed to get tutor info"), then scrape each row. -/
def searchTutors (b : Backend) (fromDay : Int) : List Op × RRes (List Tutor) :=
  let tr0 := [Op.waitElem tutorListSelector, Op.findElems tutorListSelector]
  match b.findElements tutorListSelector with
  | .error e => (tr0, RRes.err (RErr.generic ("failed to get tutor info: " ++ e)))
  | .ok n =>
    let (tr, r) := scrapeTutors b fromDay 1 n
    (tr0 ++ tr, r)

/-- The final result construction (rarejob.go lines 207–211): index
`tutors[0]` and `tutors[0].AvailableSlots[0]` with no emptiness guard —
an empty list at either index is a runtime panic, modelled as `none`. -/
def buildReserve (tutors : List Tutor) : Option Reserve :=
  match tutors with
  | [] => none
  | t :: _ =>
    match t.AvailableSlots with
    | [] => none
    | s :: _ => some ⟨t.Name, s, s + 25⟩

/-- The reservation phase (rarejob.go lines 185–211): click the hard-coded
(1,1) slot button, log the current URL, click the confirmation link
(located by its Japanese link text), wait for the finish URL, and build the
`Reserve` from the scraped list. -/
def reservePhase (b : Backend) (tutors : List Tutor) : List Op × RRes Reserve :=
  let sel11 := tutorTimeSlotButtonSelector 1 1
  let tr0 := [Op.waitElem sel11, Op.findElem sel11]
  match b.findElement sel11 with
  | .error e =>
    (tr0, RRes.err (RErr.generic ("failed to find time slot button: " ++ e)))
  | .ok _ =>
    let tr1 := tr0 ++ [Op.click, Op.currentURL,
      Op.waitElem "予約する", Op.findElem "予約する"]
    match b.findElement "予約する" with
    | .error e =>
      (tr1, RRes.err (RErr.generic ("failed to get reserve button: " ++ e)))
    | .ok _ =>
      let tr2 := tr1 ++ [Op.click, Op.waitURL rarejobReservationFinishURL]
      match buildReserve tutors with
      | none => (tr2, RRes.crash)
      | some r => (tr2, RRes.ok r)

/-- Everything `ReserveTutor` does once the window check has passed
(rarejob.go lines 138–211): generate the search URL, navigate to it,
scrape, reserve. -/
def afterValidation (b : Backend) (fromT byT : GoTime) : List Op × RRes Reserve :=
  match generateTutorSearchQuery fromT byT with
  | .error e =>
    ([], RRes.err (RErr.generic ("failed to generate search query: " ++ e)))
  | .ok queryURL =>
    match b.navErr queryURL with
    | some e =>
      ([Op.get queryURL],
       RRes.err (RErr.generic ("failed to get availabe tutor list: " ++ e)))
    | none =>
      let (trS, rS) := searchTutors b (dayOf fromT)
      match rS with
      | RRes.err e => (Op.get queryURL :: trS, RRes.err e)
      | RRes.crash => (Op.get queryURL :: trS, RRes.crash)
      | RRes.ok tutors =>
        let (trR, rR) := reservePhase b tutors
        (Op.get queryURL :: trS ++ trR, rR)

/-- `ReserveTutor` (rarejob.go lines 125–212): compute
`by = from.Local().Add(margin)` and reject with `ErrSpreadAcrossTwoDays`
unless `margin < 24h && from.Hour() < by.Hour()` — before any query
generation or driver call — then run the search and reservation phases. -/
def ReserveTutor (b : Backend) (fromT margin : GoTime) : List Op × RRes Reserve :=
  let byT := fromT + margin
  if margin < 1440 ∧ goHour fromT < goHour byT then
    afterValidation b fromT byT
  else
    ([], RRes.err RErr.spreadAcrossTwoDays)

/-- Responses of the fake driver for the login flow: the navigation error
of `Get(rarejobLoginURL)`, the three form-element lookups, and the outcome
of the `Wait` on a non-empty session id. -/
structure LoginBackend where
  navErr : Option String
  findEmail : Except String Elem
  findPassword : Except String Elem
  findSubmit : Except String Elem
  waitSessionErr : Option String

/-- `Login` (rarejob.go lines 88–123): navigate to the login page, wait for
and find the email field and type `os.Getenv("RAREJOB_EMAIL")`, likewise
the password field with `os.Getenv("RAREJOB_PASSWORD")`, click the submit
button, and wait until the session id is non-empty.  The `username` and
`password` parameters are bound but never read — the keys typed come from
the environment `env`. -/
def Login (b : LoginBackend) (env : String → String)
    (username password : String) : List Op × Option String :=
  match b.navErr with
  | some e =>
    ([Op.get rarejobLoginURL],
     some ("failed to access rarejob login page: " ++ e))
  | none =>
    let tr0 := [Op.get rarejobLoginURL, Op.waitElem loginPageEmailSelector,
      Op.findElem loginPageEmailSelector]
    match b.findEmail with
    | .error e => (tr0, some ("failed to find the email input box: " ++ e))
    | .ok _ =>
      let tr1 := tr0 ++ [Op.sendKeys (env "RAREJOB_EMAIL"),
        Op.waitElem loginPagePasswordSelector,
        Op.findElem loginPagePasswordSelector]
      match b.findPassword with
      | .error e => (tr1, some ("failed to find the password input box: " ++ e))
      | .ok _ =>
        let tr2 := tr1 ++ [Op.sendKeys (env "RAREJOB_PASSWORD"),
          Op.findElem "yt0"]
        match b.findSubmit with
        | .error e => (tr2, some ("failed to find submit button: " ++ e))
        | .ok _ =>
          let tr3 := tr2 ++ [Op.click, Op.waitSession]
          match b.waitSessionErr with
          | some e => (tr3, some ("login failed: " ++ e))
          | none => (tr3, none)

/-- The two release calls of `Teardown`, for the recorded call trace. -/
inductive TOp where
  | quit
  | stop
deriving Repr, DecidableEq

/-- `Teardown` (rarejob.go lines 214–222): `wd.Quit()`, and **only if that
returned no error**, `s.Stop()` — a quit failure returns immediately
(wrapped), skipping the stop; a stop failure is wrapped with the same
copy-pasted "failed to quit current webdriver session" message. -/
def Teardown (quitErr stopErr : Option String) : List TOp × Option String :=
  match quitErr with
  | some e =>
    ([TOp.quit], some ("failed to quit current webdriver session: " ++ e))
  | none =>
    match stopErr with
    | some e =>
      ([TOp.quit, TOp.stop],
       some ("failed to quit current webdriver session: " ++ e))
    | none => ([TOp.quit, TOp.stop], none)

/-- A fake driver for a run with one tutor row ("Alice") carrying three
slot elements whose labels are "9:00", "N/A" (malformed) and "10:30"; every
lookup the flow needs succeeds. -/
def fakeDriverAlice : Backend where
  navErr := fun _ => none
  findElement := fun sel =>
    if sel = tutorTimeSlotButtonSelector 1 1 then .ok ⟨"9:00"⟩
    else if sel = tutorTimeSlotButtonSelector 1 2 then .ok ⟨"N/A"⟩
    else if sel = tutorTimeSlotButtonSelector 1 3 then .ok ⟨"10:30"⟩
    else if sel = tutorNameSelector 1 then .ok ⟨"Alice"⟩
    else if sel = "予約する" then .ok ⟨"予約する"⟩
    else .error "no such element"
  findElements := fun sel =>
    if sel = tutorListSelector then .ok 1
    else if sel = tutorTimeSlotSelector 1 then .ok 3
    else .error "no such elements"
  currentURL := "rarejob:somewhere"

/-- A fake driver whose single tutor row has a name element but whose
slot-list enumeration fails. -/
def fakeDriverRowFail : Backend where
  navErr := fun _ => none
  findElement := fun sel =>
    if sel = tutorNameSelector 1 then .ok ⟨"Alice"⟩
    else .error "no such element"
  findElements := fun sel =>
    if sel = tutorListSelector then .ok 1
    else .error "stale element reference"
  currentURL := "rarejob:somewhere"

/-- A fake driver on which every single-element lookup fails. -/
def fakeDriverSlotFail : Backend where
  navErr := fun _ => none
  findElement := fun _ => .error "no such element"
  findElements := fun sel =>
    if sel = tutorListSelector then .ok 1
    else if sel = tutorTimeSlotSelector 1 then .ok 1
    else .error "no such elements"
  currentURL := "rarejob:somewhere"

/-- A fake login backend on which every step succeeds. -/
def fakeLoginDriver : LoginBackend where
  navErr := none
  findEmail := .ok ⟨""⟩
  findPassword := .ok ⟨""⟩
  findSubmit := .ok ⟨"login"⟩
  waitSessionErr := none

/-- A concrete process environment for the login witnesses. -/
def envSample : String → String := fun k =>
  if k = "RAREJOB_EMAIL" then "alice@example.com"
  else if k = "RAREJOB_PASSWORD" then "hunter2"
  else ""

/-! ## Helper lemmas -/

/-- A scraped row never signals the cross-day error: its only error return
is the wrapped slot-enumeration failure. -/
theorem scrapeRow_snd_ne_spread (b : Backend) (d : Int) (tnum : Nat) :
    (scrapeRow b d tnum).2 ≠ RRes.err RErr.spreadAcrossTwoDays := by
  unfold scrapeRow
  cases hfe : b.findElement (tutorNameSelector tnum) with
  | error e => simp [hfe]
  | ok el =>
    cases hfs : b.findElements (tutorTimeSlotSelector tnum) with
    | error e => simp [hfe, hfs]
    | ok count =>
      cases hr : (scrapeSlotsLoop b d tnum 1 count).2 with
      | none => simp [hfe, hfs, hr]
      | some slots => simp [hfe, hfs, hr]

/-- The tutor loop never signals the cross-day error. -/
theorem scrapeTutors_snd_ne_spread (b : Backend) (d : Int) :
    ∀ count tnum,
      (scrapeTutors b d tnum count).2 ≠ RRes.err RErr.spreadAcrossTwoDays := by
  intro count
  induction count with
  | zero => intro tnum; simp [scrapeTutors]
  | succ k ih =>
    intro tnum
    unfold scrapeTutors
    cases hr : (scrapeRow b d tnum).2 with
    | ok tut =>
      cases hr2 : (scrapeTutors b d (tnum + 1) k).2 with
      | ok ts => simp [hr, hr2]
      | err e =>
        have := ih (tnum + 1)
        rw [hr2] at this
        simp [hr, hr2]
        exact fun hcontra => this (by rw [hcontra])
      | crash => simp [hr, hr2]
    | err e =>
      have := scrapeRow_snd_ne_spread b d tnum
      rw [hr] at this
      simp [hr]
      exact fun hcontra => this (by rw [hcontra])
    | crash => simp [hr]

/-- The search phase never signals the cross-day error. -/
theorem searchTutors_snd_ne_spread (b : Backend) (d : Int) :
    (searchTutors b d).2 ≠ RRes.err RErr.spreadAcrossTwoDays := by
  unfold searchTutors
  cases hfs : b.findElements tutorListSelector with
  | error e => simp
  | ok n =>
    have := scrapeTutors_snd_ne_spread b d n 1
    cases hr : (scrapeTutors b d 1 n).2 with
    | ok ts => simp [hr]
    | err e =>
      rw [hr] at this
      simp [hr]
      exact fun hcontra => this (by rw [hcontra])
    | crash => simp [hr]

/-- The reservation phase never signals the cross-day error. -/
theorem reservePhase_snd_ne_spread (b : Backend) (tutors : List Tutor) :
    (reservePhase b tutors).2 ≠ RRes.err RErr.spreadAcrossTwoDays := by
  unfold reservePhase
  cases h1 : b.findElement (tutorTimeSlotButtonSelector 1 1) with
  | error e => simp [h1]
  | ok e1 =>
    cases h2 : b.findElement "予約する" with
    | error e => simp [h1, h2]
    | ok e2 =>
      cases hb : buildReserve tutors with
      | none => simp [h1, h2, hb]
      | some r => simp [h1, h2, hb]

/-- Once the window check has passed, the cross-day error can no longer
arise: every later failure is a wrapped `generic` error or a panic. -/
theorem afterValidation_snd_ne_spread (b : Backend) (fromT byT : GoTime) :
    (afterValidation b fromT byT).2 ≠ RRes.err RErr.spreadAcrossTwoDays := by
  unfold afterValidation generateTutorSearchQuery
  cases hn : b.navErr ("rarejob:search?from=" ++ toString fromT ++ "&by=" ++
      toString byT) with
  | some e => simp [hn]
  | none =>
    have hS := searchTutors_snd_ne_spread b (dayOf fromT)
    cases hr : (searchTutors b (dayOf fromT)).2 with
    | ok ts =>
      have hR := reservePhase_snd_ne_spread b ts
      cases hr2 : (reservePhase b ts).2 with
      | ok r => simp [hn, hr, hr2]
      | err e =>
        rw [hr2] at hR
        simp [hn, hr, hr2]
        exact fun hcontra => hR (by rw [hcontra])
      | crash => simp [hn, hr, hr2]
    | err e =>
      rw [hr] at hS
      simp [hn, hr]
      exact fun hcontra => hS (by rw [hcontra])
    | crash => simp [hn, hr]

/-- A successful reservation phase got its result from `buildReserve` on
the scraped list. -/
theorem reservePhase_snd_ok (b : Backend) (tutors : List Tutor) (r : Reserve)
    (h : (reservePhase b tutors).2 = RRes.ok r) :
    buildReserve tutors = some r := by
  cases h1 : b.findElement (tutorTimeSlotButtonSelector 1 1) with
  | error e => simp [reservePhase, h1] at h
  | ok e1 =>
    cases h2 : b.findElement "予約する" with
    | error e => simp [reservePhase, h1, h2] at h
    | ok e2 =>
      cases hb : buildReserve tutors with
      | none => simp [reservePhase, h1, h2, hb] at h
      | some r2 =>
        simp [reservePhase, h1, h2, hb] at h
        rw [h]

/-- `buildReserve` yields a value exactly when the list opens with a tutor
whose slot list opens with a slot, and then the value is that name, that
slot, and that slot plus 25 minutes. -/
theorem buildReserve_eq_some (tutors : List Tutor) (r : Reserve)
    (h : buildReserve tutors = some r) :
    ∃ t rest s srest, tutors = t :: rest ∧ t.AvailableSlots = s :: srest ∧
      r = ⟨t.Name, s, s + 25⟩ := by
  cases tutors with
  | nil => simp [buildReserve] at h
  | cons t rest =>
    cases hs : t.AvailableSlots with
    | nil => simp [buildReserve, hs] at h
    | cons s srest =>
      refine ⟨t, rest, s, srest, rfl, hs, ?_⟩
      simp [buildReserve, hs] at h
      exact h.symm

/-- A successful post-validation run implies the search phase succeeded
and the result came from `buildReserve` on the scraped tutors. -/
theorem afterValidation_snd_ok (b : Backend) (fromT byT : GoTime)
    (r : Reserve) (h : (afterValidation b fromT byT).2 = RRes.ok r) :
    ∃ ts, (searchTutors b (dayOf fromT)).2 = RRes.ok ts ∧
      buildReserve ts = some r := by
  cases hq : generateTutorSearchQuery fromT byT with
  | error e => simp [afterValidation, hq] at h
  | ok url =>
    cases hn : b.navErr url with
    | some e => simp [afterValidation, hq, hn] at h
    | none =>
      cases hs : (searchTutors b (dayOf fromT)).2 with
      | err e => simp [afterValidation, hq, hn, hs] at h
      | crash => simp [afterValidation, hq, hn, hs] at h
      | ok ts =>
        simp [afterValidation, hq, hn, hs] at h
        exact ⟨ts, rfl, reservePhase_snd_ok b ts r h⟩

/-- A row whose name element resolves but whose slot enumeration fails
returns the wrapped fatal error. -/
theorem scrapeRow_err_of_enum_fail (b : Backend) (d : Int) (tnum : Nat)
    (el : Elem) (msg : String)
    (hname : b.findElement (tutorNameSelector tnum) = .ok el)
    (hfail : b.findElements (tutorTimeSlotSelector tnum) = .error msg) :
    (scrapeRow b d tnum).2 = RRes.err (RErr.generic
      ("failed to get time slots for tutor #" ++ toString tnum ++ ": " ++
        msg)) := by
  unfold scrapeRow
  simp [hname, hfail]

/-- If the rows before `j` scrape cleanly and row `j` returns a fatal
error, the tutor loop covering `j` returns that error. -/
theorem scrapeTutors_err_of_row_err (b : Backend) (d : Int) (j : Nat)
    (e : RErr) (hrow : (scrapeRow b d j).2 = RRes.err e) :
    ∀ count start, start ≤ j → j < start + count →
      (∀ i, start ≤ i → i < j →
        ∃ tut, (scrapeRow b d i).2 = RRes.ok tut) →
      (scrapeTutors b d start count).2 = RRes.err e := by
  intro count
  induction count with
  | zero => intro start h1 h2 hprev; omega
  | succ k ih =>
    intro start h1 h2 hprev
    unfold scrapeTutors
    by_cases hsj : start = j
    · subst hsj
      simp [hrow]
    · have hlt : start < j := lt_of_le_of_ne h1 hsj
      obtain ⟨tut, htut⟩ := hprev start le_rfl hlt
      have hrec := ih (start + 1) (by omega) (by omega)
        (fun i hi1 hi2 => hprev i (by omega) hi2)
      simp [htut, hrec]

/-! ## Claims -/

/-- C1: `ReserveTutor`'s time-window validation fails with
`SpreadAcrossTwoDaysError` if and only if NOT (margin < 24h AND the
hour-of-day of `from` is strictly less than the hour-of-day of
`by = from + margin`, in local time); in particular every margin ≥ 24h is
rejected, and `from = 23:30, margin = 1h` is rejected because 23 is not
less than 0. -/
theorem reserveTutor_cross_day_iff (b : Backend) (fromT margin d : Int) :
    ((ReserveTutor b fromT margin).2 = RRes.err RErr.spreadAcrossTwoDays ↔
      ¬(margin < 1440 ∧ goHour fromT < goHour (fromT + margin)))
    ∧ (1440 ≤ margin →
       (ReserveTutor b fromT margin).2 = RRes.err RErr.spreadAcrossTwoDays)
    ∧ (ReserveTutor b (timeDate d 23 30) 60).2 =
        RRes.err RErr.spreadAcrossTwoDays := by
  have key : ∀ f m : Int,
      ((ReserveTutor b f m).2 = RRes.err RErr.spreadAcrossTwoDays ↔
        ¬(m < 1440 ∧ goHour f < goHour (f + m))) := by
    intro f m
    unfold ReserveTutor
    by_cases hc : m < 1440 ∧ goHour f < goHour (f + m)
    · have := afterValidation_snd_ne_spread b f (f + m)
      simp only [if_pos hc]
      constructor
      · intro heq; exact absurd heq this
      · intro hn; exact absurd hc hn
    · simp [if_neg hc, hc]
  refine ⟨key fromT margin, ?_, ?_⟩
  · intro hm
    exact (key fromT margin).mpr (fun hc => absurd hc.1 (by omega))
  · refine (key (timeDate d 23 30) 60).mpr ?_
    rintro ⟨-, hlt⟩
    unfold goHour timeDate at hlt
    omega

/-- Witness for C1 at `from = 0`, `margin = 25h`. -/
theorem reserveTutor_cross_day_iff_witness :
    (ReserveTutor fakeDriverAlice 0 1500).2 =
      RRes.err RErr.spreadAcrossTwoDays :=
  (reserveTutor_cross_day_iff fakeDriverAlice 0 1500 0).2.1 (by norm_num)

/-- C3 counterexample: when the session quit fails, `Teardown` returns
immediately — the driver-process stop is *not* invoked (the recorded call
trace is `[quit]` and does not contain `stop`), refuting the claim that
both release steps are always attempted. -/
theorem teardown_skips_stop_on_quit_failure :
    (Teardown (some "boom") none).1 = [TOp.quit] ∧
      TOp.stop ∉ (Teardown (some "boom") none).1 := by
  constructor
  · rfl
  · intro hmem
    rw [show (Teardown (some "boom") none).1 = [TOp.quit] from rfl] at hmem
    simp at hmem

/-- C3 amended: `Teardown` attempts its two release steps in order but
returns on the first failure: if the session quit fails, its wrapped error
is returned and the driver-process stop is skipped; only when the quit
succeeds is the stop invoked, and a stop failure is returned wrapped (with
the same copy-pasted "quit" message). -/
theorem teardown_first_error_returns (quitErr stopErr : Option String) :
    (quitErr = none → (Teardown quitErr stopErr).1 = [TOp.quit, TOp.stop])
    ∧ (∀ e, quitErr = some e →
        Teardown quitErr stopErr = ([TOp.quit],
          some ("failed to quit current webdriver session: " ++ e)))
    ∧ (∀ e, quitErr = none → stopErr = some e →
        Teardown quitErr stopErr = ([TOp.quit, TOp.stop],
          some ("failed to quit current webdriver session: " ++ e))) := by
  refine ⟨?_, ?_, ?_⟩
  · intro hq
    subst hq
    cases stopErr <;> rfl
  · intro e hq
    subst hq
    rfl
  · intro e hq hs
    subst hq
    subst hs
    rfl

/-- Witness for the amended C3 at a failing quit. -/
theorem teardown_first_error_returns_witness :
    Teardown (some "x") none = ([TOp.quit],
      some ("failed to quit current webdriver session: " ++ "x")) :=
  (teardown_first_error_returns (some "x") none).2.1 "x" rfl

/-- C4: whenever the window validation rejects (in particular for
`margin = 25h`), `ReserveTutor` returns the cross-day error with an empty
operation trace — no driver call (navigation included) is ever issued on
that path. -/
theorem rejected_window_no_driver_call (b : Backend) (fromT margin : Int)
    (h : ¬(margin < 1440 ∧ goHour fromT < goHour (fromT + margin))) :
    ReserveTutor b fromT margin = ([], RRes.err RErr.spreadAcrossTwoDays) := by
  unfold ReserveTutor
  simp [if_neg h]

/-- Witness for C4 at `margin = 25h`. -/
theorem rejected_window_no_driver_call_witness :
    ReserveTutor fakeDriverAlice (timeDate 5 9 0) (25 * 60) =
      ([], RRes.err RErr.spreadAcrossTwoDays) :=
  rejected_window_no_driver_call fakeDriverAlice (timeDate 5 9 0) (25 * 60)
    (fun hc => absurd hc.1 (by norm_num))

/-- C2 (evaluation at the failing input): for a row with three scraped
labels "9:00", "N/A", "10:30" where the second is malformed, the missing
`continue` makes the loop append *both* the zero-time sentinel and a bogus
anchored `time.Date(..., 0, 0, ...)` entry for the malformed label, so the
output has 4 entries, not the 3 the spec's index-alignment policy (and the
code's own "fill zero time to preserve index" comment) requires. -/
theorem malformed_slot_double_append :
    (scrapeSlotsLoop fakeDriverAlice 5 1 1 3).2 =
      some [timeDate 5 9 0, zeroTime, timeDate 5 0 0, timeDate 5 10 30]
    ∧ ((scrapeSlotsLoop fakeDriverAlice 5 1 1 3).2.getD []).length = 4
    ∧ ((scrapeSlotsLoop fakeDriverAlice 5 1 1 3).2.getD []).length ≠ 3 := by
  decide

/-- C7: a successfully parsed slot label is anchored to the search date:
the entry the loop appends for it is `time.Date` of `from`'s day with the
parsed hour and minute (whose day/hour/minute components are exactly those
inputs for in-range hours and minutes); and the label "9:05" parses to
hour 9, minute 5. -/
theorem parsed_slot_anchored (b : Backend) (d : Int) (tnum snum : Nat)
    (elem : Elem) (h m : Nat)
    (hel : b.findElement (tutorTimeSlotButtonSelector tnum snum) = .ok elem)
    (hp : parseTime elem.text = (h, m, true)) :
    (scrapeSlotStep b d tnum snum).2 = some [timeDate d h m]
    ∧ (h < 24 → m < 60 →
        dayOf (timeDate d h m) = d ∧ goHour (timeDate d h m) = (h : Int) ∧
        goMinute (timeDate d h m) = (m : Int))
    ∧ parseTime "9:05" = (9, 5, true) := by
  refine ⟨?_, ?_, by decide⟩
  · unfold scrapeSlotStep
    simp [hel, hp]
  · intro hh hm
    unfold dayOf goHour goMinute timeDate
    refine ⟨?_, ?_, ?_⟩ <;> omega

/-- Witness for C7 at the "9:00" label of the Alice fake driver. -/
theorem parsed_slot_anchored_witness :
    (scrapeSlotStep fakeDriverAlice 5 1 1).2 = some [timeDate 5 9 0]
    ∧ goHour (timeDate 5 9 0) = 9 := by
  have h := parsed_slot_anchored fakeDriverAlice 5 1 1 ⟨"9:00"⟩ 9 0
    (by decide) (by decide)
  refine ⟨h.1, ?_⟩
  exact_mod_cast (h.2.1 (by norm_num) (by norm_num)).2.1

/-- C9: when the lookup of a slot's button element fails, the loop body
still calls `Text()` on the failed (nil) handle instead of skipping to the
next slot — the recorded trace contains the `text` call and the step's
outcome is the panic `none`, so the slot scrape is not total under a
lookup failure. -/
theorem slot_lookup_failure_calls_text (b : Backend) (d : Int)
    (tnum snum : Nat) (msg : String)
    (hfail : b.findElement (tutorTimeSlotButtonSelector tnum snum) =
      .error msg) :
    scrapeSlotStep b d tnum snum =
      ([Op.findElem (tutorTimeSlotButtonSelector tnum snum), Op.text],
       none) := by
  unfold scrapeSlotStep
  simp [hfail]

/-- Witness for C9 on the all-lookups-fail fake driver. -/
theorem slot_lookup_failure_calls_text_witness :
    scrapeSlotStep fakeDriverSlotFail 5 1 1 =
      ([Op.findElem (tutorTimeSlotButtonSelector 1 1), Op.text], none) :=
  slot_lookup_failure_calls_text fakeDriverSlotFail 5 1 1 "no such element" rfl

/-- C5: a successful `ReserveTutor` run returns a `Reserve` built from the
first scraped tutor's name and that tutor's first slot entry, with `EndAt`
equal to `StartAt` plus exactly 25 minutes. -/
theorem success_builds_from_first_tutor_first_slot (b : Backend)
    (fromT margin : Int) (r : Reserve)
    (h : (ReserveTutor b fromT margin).2 = RRes.ok r) :
    r.EndAt = r.StartAt + 25 ∧
    ∃ ts t rest s srest,
      (searchTutors b (dayOf fromT)).2 = RRes.ok ts ∧
      ts = t :: rest ∧ t.AvailableSlots = s :: srest ∧
      r = ⟨t.Name, s, s + 25⟩ := by
  unfold ReserveTutor at h
  by_cases hc : margin < 1440 ∧ goHour fromT < goHour (fromT + margin)
  · rw [if_pos hc] at h
    obtain ⟨ts, hs, hb⟩ := afterValidation_snd_ok b fromT (fromT + margin) r h
    obtain ⟨t, rest, s, srest, h1, h2, h3⟩ := buildReserve_eq_some ts r hb
    subst h3
    exact ⟨rfl, ts, t, rest, s, srest, hs, h1, h2, rfl⟩
  · rw [if_neg hc] at h
    simp at h

/-- Witness for C5: the Alice run's first slot resolves to 09:00 on the
search day and the reservation runs 09:00–09:25. -/
theorem success_builds_witness :
    (ReserveTutor fakeDriverAlice (timeDate 5 9 0) 120).2 =
      RRes.ok ⟨"Alice", timeDate 5 9 0, timeDate 5 9 0 + 25⟩
    ∧ (⟨"Alice", timeDate 5 9 0, timeDate 5 9 0 + 25⟩ : Reserve).EndAt =
      (⟨"Alice", timeDate 5 9 0, timeDate 5 9 0 + 25⟩ : Reserve).StartAt +
        25 := by
  refine ⟨by decide, ?_⟩
  exact (success_builds_from_first_tutor_first_slot fakeDriverAlice
    (timeDate 5 9 0) 120 ⟨"Alice", timeDate 5 9 0, timeDate 5 9 0 + 25⟩
    (by decide)).1

/-- C6: if, on a row the scrape reaches (its predecessors scraped cleanly
and its name element resolved), enumerating the row's slot elements fails,
then `ReserveTutor` returns an error outcome — never a `Reserve`. -/
theorem slot_enum_failure_fatal (b : Backend) (fromT margin : Int)
    (n j : Nat)
    (hn : b.findElements tutorListSelector = .ok n)
    (hj1 : 1 ≤ j) (hjn : j ≤ n)
    (hprev : ∀ i, 1 ≤ i → i < j →
      ∃ tut, (scrapeRow b (dayOf fromT) i).2 = RRes.ok tut)
    (hname : ∃ el, b.findElement (tutorNameSelector j) = .ok el)
    (hfail : ∃ msg, b.findElements (tutorTimeSlotSelector j) = .error msg) :
    ∃ tr e, ReserveTutor b fromT margin = (tr, RRes.err e) := by
  obtain ⟨el, hel⟩ := hname
  obtain ⟨msg, hmsg⟩ := hfail
  have hrow := scrapeRow_err_of_enum_fail b (dayOf fromT) j el msg hel hmsg
  have hloop := scrapeTutors_err_of_row_err b (dayOf fromT) j _ hrow n 1
    hj1 (by omega) hprev
  have hsearch : (searchTutors b (dayOf fromT)).2 = RRes.err
      (RErr.generic ("failed to get time slots for tutor #" ++ toString j ++
        ": " ++ msg)) := by
    simp [searchTutors, hn, hloop]
  unfold ReserveTutor
  by_cases hc : margin < 1440 ∧ goHour fromT < goHour (fromT + margin)
  · rw [if_pos hc]
    cases hq : generateTutorSearchQuery fromT (fromT + margin) with
    | error e =>
      exact ⟨[], RErr.generic ("failed to generate search query: " ++ e),
        by simp [afterValidation, hq]⟩
    | ok url =>
      cases hnav : b.navErr url with
      | some e =>
        exact ⟨[Op.get url],
          RErr.generic ("failed to get availabe tutor list: " ++ e),
          by simp [afterValidation, hq, hnav]⟩
      | none =>
        exact ⟨Op.get url :: (searchTutors b (dayOf fromT)).1,
          RErr.generic ("failed to get time slots for tutor #" ++
            toString j ++ ": " ++ msg),
          by simp [afterValidation, hq, hnav, hsearch]⟩
  · rw [if_neg hc]
    exact ⟨[], RErr.spreadAcrossTwoDays, rfl⟩

/-- Witness for C6 on the fake driver whose only row's slot enumeration
fails. -/
theorem slot_enum_failure_fatal_witness :
    ∃ tr e, ReserveTutor fakeDriverRowFail (timeDate 5 9 0) 120 =
      (tr, RRes.err e) :=
  slot_enum_failure_fatal fakeDriverRowFail (timeDate 5 9 0) 120 1 1
    (by decide) le_rfl le_rfl
    (fun i hi1 hi2 => absurd hi2 (by omega))
    ⟨⟨"Alice"⟩, by decide⟩ ⟨"stale element reference", by decide⟩

/-- C8: `Login`'s observable behaviour (operation trace, keys typed, and
returned error) does not depend on its `username`/`password` parameters —
any two calls under the same environment and backend state are identical —
and every key it sends comes from the environment variables
`RAREJOB_EMAIL` / `RAREJOB_PASSWORD`. -/
theorem login_ignores_credentials (b : LoginBackend) (env : String → String)
    (u1 p1 u2 p2 : String) :
    Login b env u1 p1 = Login b env u2 p2
    ∧ ∀ k, Op.sendKeys k ∈ (Login b env u1 p1).1 →
        k = env "RAREJOB_EMAIL" ∨ k = env "RAREJOB_PASSWORD" := by
  refine ⟨rfl, ?_⟩
  intro k hk
  cases hn : b.navErr with
  | some e => simp [Login, hn] at hk
  | none =>
    cases he : b.findEmail with
    | error e => simp [Login, hn, he] at hk
    | ok el1 =>
      cases hp : b.findPassword with
      | error e =>
        simp [Login, hn, he, hp] at hk
        exact Or.inl hk
      | ok el2 =>
        cases hsu : b.findSubmit with
        | error e =>
          simp [Login, hn, he, hp, hsu] at hk
          exact hk
        | ok el3 =>
          cases hw : b.waitSessionErr with
          | some e =>
            simp [Login, hn, he, hp, hsu, hw] at hk
            exact hk
          | none =>
            simp [Login, hn, he, hp, hsu, hw] at hk
            exact hk

/-- Witness for C8 under a concrete environment and all-success backend. -/
theorem login_ignores_credentials_witness :
    Login fakeLoginDriver envSample "u1" "p1" =
      Login fakeLoginDriver envSample "u2" "p2"
    ∧ ("alice@example.com" = envSample "RAREJOB_EMAIL" ∨
       "alice@example.com" = envSample "RAREJOB_PASSWORD") := by
  have h := login_ignores_credentials fakeLoginDriver envSample
    "u1" "p1" "u2" "p2"
  exact ⟨h.1, h.2 "alice@example.com" (by decide)⟩

/-- C10: `buildReserve` — the embedding of the unguarded
`tutors[0]`/`AvailableSlots[0]` indexing — yields a value exactly when at
least one tutor with at least one slot entry was scraped; when the scraped
list (or the first tutor's slot list) is empty, the reservation phase that
reaches the construction panics instead of returning an error. -/
theorem reserve_indexing_unguarded (tutors : List Tutor) (b : Backend)
    (e1 e2 : Elem)
    (h1 : b.findElement (tutorTimeSlotButtonSelector 1 1) = .ok e1)
    (h2 : b.findElement "予約する" = .ok e2) :
    ((∃ r, buildReserve tutors = some r) ↔
      ∃ t rest, tutors = t :: rest ∧ t.AvailableSlots ≠ [])
    ∧ (buildReserve tutors = none →
        (reservePhase b tutors).2 = RRes.crash) := by
  constructor
  · constructor
    · rintro ⟨r, hr⟩
      obtain ⟨t, rest, s, srest, ht, hs, -⟩ := buildReserve_eq_some tutors r hr
      exact ⟨t, rest, ht, by simp [hs]⟩
    · rintro ⟨t, rest, ht, hne⟩
      subst ht
      cases hs : t.AvailableSlots with
      | nil => exact absurd hs hne
      | cons s srest =>
        exact ⟨⟨t.Name, s, s + 25⟩, by simp [buildReserve, hs]⟩
  · intro hb
    simp [reservePhase, h1, h2, hb]

/-- Witness for C10: with no scraped tutors the reservation phase
panics. -/
theorem reserve_indexing_unguarded_witness :
    (reservePhase fakeDriverAlice []).2 = RRes.crash :=
  (reserve_indexing_unguarded [] fakeDriverAlice ⟨"9:00"⟩ ⟨"予約する"⟩
    (by decide) (by decide)).2 rfl

end librarejob
